import Mathlib

/-!
Verification of the configuration repository: the single source file
`src/pelican.conf.py` is a flat sequence of module-level assignments that
declares a Pelican static-site-generator configuration.  We embed the
configuration record as a Lean structure whose fields carry the option
names from the file, and the act of loading the file as a function that
produces the record holding exactly the declared literal values.
-/

/-- The Configuration Record: one field per option declared in
`src/pelican.conf.py`.  `GITHUB_URL` is optional (the file's comment says
the entry may be commented out), so it is an `Option String`; all other
fields are the straightforward Lean counterparts of the Python literals
(tuples and lists of pairs become lists of string pairs). -/
structure ConfigRecord where
  DEFAULT_LANG : String
  AUTHOR : String
  SITENAME : String
  SITESUBTITLE : String
  SITEURL : String
  GITHUB_URL : Option String
  DISQUS_SITENAME : String
  FEED_RSS : String
  CATEGORY_FEED_RSS : String
  PDF_GENERATOR : Bool
  REVERSE_CATEGORY_ORDER : Bool
  LOCALE : String
  DEFAULT_PAGINATION : Int
  CLEAN_URLS : Bool
  TIMEZONE : String
  LINKS : List (String × String)
  SOCIAL : List (String × String)
  THEME : String
  DEFAULT_METADATA : List (String × String)
  STATIC_PATHS : List String
  FILES_TO_COPY : List (String × String)
  deriving DecidableEq, Repr

/-- Loading `src/pelican.conf.py`: executing the module is just evaluating
its assignments, so the loaded record is the record of declared literals,
transcribed field by field from the source file. -/
def loadConfig : ConfigRecord :=
  { DEFAULT_LANG := "en"
    AUTHOR := "Douglas Alan"
    SITENAME := "The Daily Functor"
    SITESUBTITLE := "2.0 Steps Forward, 1.0 Steps Back"
    SITEURL := "http://dailyfunctor.gaffa.org"
    GITHUB_URL := some "http://github.com/nessus42/daily-functor"
    DISQUS_SITENAME := "dailyfunctor"
    FEED_RSS := "feeds/all.rss.xml"
    CATEGORY_FEED_RSS := "feeds/%s.rss.xml"
    PDF_GENERATOR := false
    REVERSE_CATEGORY_ORDER := true
    LOCALE := ""
    DEFAULT_PAGINATION := 2
    CLEAN_URLS := false
    TIMEZONE := "America/New_York"
    LINKS :=
      [ ("Pelican", "http://docs.notmyidea.org/alexis/pelican/")
      , ("Python.org", "http://python.org")
      , ("Jinja2", "http://jinja.pocoo.org")
      , ("You can modify those links in your config file", "#") ]
    SOCIAL :=
      [ ("twitter", "http://twitter.com/ametaireau")
      , ("lastfm", "http://lastfm.com/user/akounet")
      , ("github", "http://github.com/ametaireau") ]
    THEME := "da-clean"
    DEFAULT_METADATA := [("yeah", "it is")]
    STATIC_PATHS := ["images"]
    FILES_TO_COPY := [("extra/robots.txt", "robots.txt")] }

/-- The option names declared in `src/pelican.conf.py`, in declaration
order (the uncommented assignments of the file). -/
def optionNames : List String :=
  [ "DEFAULT_LANG", "AUTHOR", "SITENAME", "SITESUBTITLE", "SITEURL"
  , "GITHUB_URL", "DISQUS_SITENAME", "FEED_RSS", "CATEGORY_FEED_RSS"
  , "PDF_GENERATOR", "REVERSE_CATEGORY_ORDER", "LOCALE"
  , "DEFAULT_PAGINATION", "CLEAN_URLS", "TIMEZONE", "LINKS", "SOCIAL"
  , "THEME", "DEFAULT_METADATA", "STATIC_PATHS", "FILES_TO_COPY" ]

/-- One run of the load operation.  The argument marks a single run, so
that determinism across runs can be stated as a genuine property of two
runs rather than of one value. -/
def load (_run : Unit) : ConfigRecord := loadConfig

/-- Modelled from the spec: the repository holds only the configuration
file, and the load routine that consumes it belongs to the external
generator, so it is not under `src/`.  The spec says omitting an optional
field such as `GITHUB_URL` results in the corresponding feature being
disabled, not a load failure; we model the load as taking the (possibly
absent) `GITHUB_URL` value and always succeeding. -/
def loadWithGithubUrl (g : Option String) : Except String ConfigRecord :=
  Except.ok { loadConfig with GITHUB_URL := g }

/-- Modelled from the spec: the GitHub banner feature of the external
generator is enabled exactly when a `GITHUB_URL` value is present in the
record ("optional external banner link; omitting it disables the
banner"). -/
def bannerEnabled (c : ConfigRecord) : Bool :=
  c.GITHUB_URL.isSome

/-- The operations the repository defines on the configuration record.
Per the spec the only operation is loading the record; there is no
mutating operation. -/
inductive Op where
  | load : Op
  deriving DecidableEq, Repr

/-- Effect of one operation on the current configuration record: a load
replaces the record with the freshly loaded one. -/
def applyOp : Op → ConfigRecord → ConfigRecord
  | Op.load, _ => loadConfig

/-- Effect of a sequence of operations, applied left to right. -/
def applyOps : List Op → ConfigRecord → ConfigRecord
  | [], c => c
  | o :: os, c => applyOps os (applyOp o c)

/-- C1: for every recognized option name, loading the configuration yields
the literal value declared in the file; in particular `DEFAULT_PAGINATION`
loads as the integer 2 and `CLEAN_URLS` loads as the boolean `false`.
Stated as the conjunction, over all twenty-one declared options, of the
loaded field equaling the declared literal. -/
theorem load_yields_declared_literals :
    loadConfig.DEFAULT_PAGINATION = 2 ∧
    loadConfig.CLEAN_URLS = false ∧
    loadConfig.DEFAULT_LANG = "en" ∧
    loadConfig.AUTHOR = "Douglas Alan" ∧
    loadConfig.SITENAME = "The Daily Functor" ∧
    loadConfig.SITESUBTITLE = "2.0 Steps Forward, 1.0 Steps Back" ∧
    loadConfig.SITEURL = "http://dailyfunctor.gaffa.org" ∧
    loadConfig.GITHUB_URL = some "http://github.com/nessus42/daily-functor" ∧
    loadConfig.DISQUS_SITENAME = "dailyfunctor" ∧
    loadConfig.FEED_RSS = "feeds/all.rss.xml" ∧
    loadConfig.CATEGORY_FEED_RSS = "feeds/%s.rss.xml" ∧
    loadConfig.PDF_GENERATOR = false ∧
    loadConfig.REVERSE_CATEGORY_ORDER = true ∧
    loadConfig.LOCALE = "" ∧
    loadConfig.TIMEZONE = "America/New_York" ∧
    loadConfig.LINKS =
      [ ("Pelican", "http://docs.notmyidea.org/alexis/pelican/")
      , ("Python.org", "http://python.org")
      , ("Jinja2", "http://jinja.pocoo.org")
      , ("You can modify those links in your config file", "#") ] ∧
    loadConfig.SOCIAL =
      [ ("twitter", "http://twitter.com/ametaireau")
      , ("lastfm", "http://lastfm.com/user/akounet")
      , ("github", "http://github.com/ametaireau") ] ∧
    loadConfig.THEME = "da-clean" ∧
    loadConfig.DEFAULT_METADATA = [("yeah", "it is")] ∧
    loadConfig.STATIC_PATHS = ["images"] ∧
    loadConfig.FILES_TO_COPY = [("extra/robots.txt", "robots.txt")] :=
  ⟨rfl, rfl, rfl, rfl, rfl, rfl, rfl, rfl, rfl, rfl, rfl, rfl, rfl, rfl,
   rfl, rfl, rfl, rfl, rfl, rfl, rfl⟩

/-- C2: `LINKS` loads as an ordered sequence preserving the declared order
of the blogroll entries, and its first entry is the pair
`("Pelican", "http://docs.notmyidea.org/alexis/pelican/")`. -/
theorem links_ordered_first_pelican :
    loadConfig.LINKS =
      [ ("Pelican", "http://docs.notmyidea.org/alexis/pelican/")
      , ("Python.org", "http://python.org")
      , ("Jinja2", "http://jinja.pocoo.org")
      , ("You can modify those links in your config file", "#") ] ∧
    loadConfig.LINKS.head? =
      some ("Pelican", "http://docs.notmyidea.org/alexis/pelican/") :=
  ⟨rfl, rfl⟩

/-- C3: membership in the loaded `STATIC_PATHS` holds for exactly the
single string `"images"`. -/
theorem static_paths_exactly_images :
    ∀ s : String, s ∈ loadConfig.STATIC_PATHS ↔ s = "images" := by
  intro s
  simp [loadConfig]

/-- C4: `FILES_TO_COPY` loads as a sequence of exactly one pair, and that
pair is `("extra/robots.txt", "robots.txt")`. -/
theorem files_to_copy_single_pair :
    loadConfig.FILES_TO_COPY.length = 1 ∧
    loadConfig.FILES_TO_COPY = [("extra/robots.txt", "robots.txt")] :=
  ⟨rfl, rfl⟩

/-- C5: loading the same file is deterministic: any two runs of the load
operation yield records that are equal field for field. -/
theorem load_deterministic (r₁ r₂ : ConfigRecord)
    (h₁ : r₁ = load ()) (h₂ : r₂ = load ()) : r₁ = r₂ := by
  rw [h₁, h₂]

/-- Witness for C5: two concrete runs of the load operation produce equal
records. -/
theorem load_deterministic_witness : load () = load () :=
  load_deterministic (load ()) (load ()) rfl rfl

/-- C6: a configuration omitting the optional `GITHUB_URL` field still
loads successfully, and in the resulting record the banner feature is
disabled. -/
theorem omitting_github_url_disables_banner :
    ∃ c : ConfigRecord,
      loadWithGithubUrl none = Except.ok c ∧ bannerEnabled c = false :=
  ⟨{ loadConfig with GITHUB_URL := none }, rfl, rfl⟩

/-- C7: the configuration record is immutable after load: applying any
sequence of the operations the repository defines to the loaded record
leaves every field equal to its value at load time. -/
theorem config_immutable_after_load (ops : List Op) :
    applyOps ops loadConfig = loadConfig := by
  induction ops with
  | nil => rfl
  | cons o os ih =>
      cases o
      simpa [applyOps, applyOp] using ih

/-- C8: the flags `PDF_GENERATOR` and `REVERSE_CATEGORY_ORDER` load as the
declared boolean literals: `false` and `true` respectively. -/
theorem flags_load_as_declared :
    loadConfig.PDF_GENERATOR = false ∧
    loadConfig.REVERSE_CATEGORY_ORDER = true :=
  ⟨rfl, rfl⟩

/-- C9: the `LOCALE` key is declared (present among the file's option
names) and loads as the empty string, so no locale override is in
effect. -/
theorem locale_present_and_empty :
    "LOCALE" ∈ optionNames ∧ loadConfig.LOCALE = "" := by
  refine ⟨?_, rfl⟩
  simp [optionNames]

/-- C10: `SOCIAL` loads as the ordered sequence of exactly the three
declared (platform, URL) pairs in declaration order, and
`DEFAULT_METADATA` loads as exactly the one pair `("yeah", "it is")`. -/
theorem social_and_metadata_load_as_declared :
    loadConfig.SOCIAL =
      [ ("twitter", "http://twitter.com/ametaireau")
      , ("lastfm", "http://lastfm.com/user/akounet")
      , ("github", "http://github.com/ametaireau") ] ∧
    loadConfig.SOCIAL.length = 3 ∧
    loadConfig.DEFAULT_METADATA = [("yeah", "it is")] :=
  ⟨rfl, rfl, rfl⟩
